import Mathlib

/-!
Shallow embedding of `bnmp_paraiba_web.py`, the single script of the
BNMP-Paraíba dashboard repository.

A pandas DataFrame is modelled as a list of rows; a row is an association
list from column label to cell.  A cell is a string, a parsed timestamp
(one integer, standing for a pandas `Timestamp`), or missing (`NaN`/`NaT`).
Date parsing (`pd.to_datetime(..., errors='coerce')`) is modelled through a
parse oracle `String → Option Int`: `none` is pandas returning `NaT` for an
unparseable value.  Python's `str.lower` is modelled on the ASCII and
Latin-1 letter ranges (which cover the Portuguese data of this app), and
`str.strip` by dropping whitespace at both ends.
-/

namespace BNMP

/-- A single cell of the table: a string value, a parsed timestamp, or a
missing value (pandas `NaN` / `NaT`). -/
inductive Cell where
  | str (s : String)
  | date (d : Int)
  | null
deriving DecidableEq, Repr

/-- A row of the table: association list from column label to cell.
Lookups take the first binding, like a DataFrame's unique column labels. -/
abbrev Row := List (String × Cell)

/-- A loaded DataFrame: column labels plus rows. -/
structure Table where
  cols : List String
  rows : List Row
deriving DecidableEq, Repr

/-- Cell lookup in a row: the first binding of the label, a label absent
from the row reading as missing. -/
def cellAt : Row → String → Cell
  | [], _ => Cell.null
  | p :: r, c => if p.1 == c then p.2 else cellAt r c

/-- Python `str.lower` restricted to ASCII (A–Z) and Latin-1 (À–Þ, except ×)
uppercase letters, the ranges relevant to this app's Portuguese data. -/
def lowerChar (c : Char) : Char :=
  let n := c.toNat
  if 65 ≤ n ∧ n ≤ 90 then Char.ofNat (n + 32)
  else if 192 ≤ n ∧ n ≤ 222 ∧ n ≠ 215 then Char.ofNat (n + 32)
  else c

/-- Python `str.lower` on a whole string (see `lowerChar`). -/
def toLowerPy (s : String) : String :=
  String.mk (s.data.map lowerChar)

/-- Python `str.strip()` with no argument: drop leading and trailing
whitespace. -/
def pyStrip (s : String) : String :=
  String.mk (((s.data.dropWhile Char.isWhitespace).reverse.dropWhile
    Char.isWhitespace).reverse)

/-- Auxiliary substring test on character lists: does the list contain
`n` as a contiguous run? -/
def containsAux (n : List Char) : List Char → Bool
  | [] => n.isEmpty
  | c :: rest => List.isPrefixOf n (c :: rest) || containsAux n rest

/-- Python's `needle in hay` substring test. -/
def strContainsSub (hay needle : String) : Bool :=
  containsAux needle.data hay.data

/-- The characters the Python `re` module documents as special outside a
character class: `. ^ $ * + ? { } [ ] \ | ( )` (brackets, parentheses and
braces written as code points). -/
def pyRegexSpecial : List Char :=
  ['.', '^', '$', '*', '+', '?', '|', '\\', '\x28', '\x29', '\x5b', '\x5d', '\x7b', '\x7d']

/-- Does the string contain no regex metacharacter?  Python `re.search`
with such a pattern is exactly a substring test, and such a pattern always
compiles. -/
def noMeta (s : String) : Bool :=
  s.data.all (fun c => !(pyRegexSpecial.contains c))

/-- Does the pattern match a prefix of the text, where `.` in the pattern
matches any single character and every other character matches literally? -/
def dotMatchHere : List Char → List Char → Bool
  | [], _ => true
  | _ :: _, [] => false
  | p :: ps, c :: cs => (p == '.' || p == c) && dotMatchHere ps cs

/-- Does the `.`-pattern match at some position of the text? -/
def dotSearchAux (ps : List Char) : List Char → Bool
  | [] => dotMatchHere ps []
  | c :: cs => dotMatchHere ps (c :: cs) || dotSearchAux ps cs

/-- A concrete regex-search function covering the patterns whose only
metacharacter is `.` (match any single character); on these patterns it
agrees with Python's `re.search(pat, x) is not None`, and on
metacharacter-free patterns it is proved below to be exactly the
substring test.  It instantiates the abstract regex-search oracle of the
search stage in concrete scenarios. -/
def dotSearch (pat hay : String) : Bool :=
  dotSearchAux pat.data hay.data

/-- Pandas `astype(str)` applied to one cell: a missing value
prints as `"nan"`; the print form of a timestamp is abstracted as its
integer value. -/
def cellToStr : Cell → String
  | Cell.str s => s
  | Cell.date d => toString d
  | Cell.null => "nan"

/-- Pandas `fillna("Não informado").astype(str)` applied to one cell
(lines 145, 192, 195, 198, 247, 252, 257 of the script). -/
def fillNaStr (c : Cell) : String :=
  match c with
  | Cell.null => "Não informado"
  | c => cellToStr c

/-- Pandas `pd.to_datetime(value, errors='coerce')` on one cell, with `parse` the
oracle for pandas' date parser: an unparseable string coerces to `NaT`. -/
def to_datetime (parse : String → Option Int) : Cell → Cell
  | Cell.str s =>
      match parse s with
      | some d => Cell.date d
      | none => Cell.null
  | Cell.date d => Cell.date d
  | Cell.null => Cell.null

/-- Line 126: `df_work[col_data] = pd.to_datetime(df_work[col_data],
errors='coerce')`, applied to one row: every cell under the resolved date
label is coerced, every other cell is untouched. -/
def coerceRow (parse : String → Option Int) (colData : Option String) (r : Row) : Row :=
  match colData with
  | some c => r.map (fun p => if p.1 == c then (p.1, to_datetime parse p.2) else p)
  | none => r

/-- Lines 122–128: `df_work = df.copy()` followed by the date coercion of
the resolved date column (a no-op when no date column resolved). -/
def mkWork (parse : String → Option Int) (colData : Option String) (t : Table) : Table :=
  { cols := t.cols, rows := t.rows.map (coerceRow parse colData) }

/-- One categorical filter body (lines 192/195/198):
`df[df[col].fillna("Não informado").astype(str).isin(selected)]`,
guarded by the Python truthiness test on the selection list
(`if selected_...:`): an empty selection skips the filter. -/
def catFilterStage (c : String) (sel : List String) (rows : List Row) : List Row :=
  if sel.isEmpty then rows
  else rows.filter (fun r => sel.contains (fillNaStr (cellAt r c)))

/-- A categorical filter keyed by an optionally-resolved column.  In the
script a non-empty selection can only arise when the column resolved (the
multiselect widget has no options otherwise), so the unresolved case is
only ever reached with an empty selection, where the stage is skipped. -/
def catApply (col : Option String) (sel : List String) (rows : List Row) : List Row :=
  match col with
  | some c => catFilterStage c sel rows
  | none => rows

/-- Lines 200–206: the date-range stage.  `bounds = some (b₁, b₂)` is an
active `date_range` widget value; each component is the result of
`pd.to_datetime(date_range[i])`, with `none` standing for the conversion
(or the tuple indexing) raising — the `except: pass` leaves the table
unchanged.  With both bounds converted, keep rows whose date cell `d`
satisfies `start ≤ d ≤ end`; a non-date cell (`NaT`) compares false. -/
def dateFilterStage (col : Option String) (bounds : Option (Option Int × Option Int))
    (rows : List Row) : List Row :=
  match col, bounds with
  | some c, some (some s, some e) =>
      rows.filter (fun r =>
        match cellAt r c with
        | Cell.date d => decide (s ≤ d) && decide (d ≤ e)
        | _ => false)
  | _, _ => rows

/-- Lines 208–213: the row mask of the search stage.  `s` is
`search_text.strip().lower()`; the mask starts all-false and each resolved
search column present in the table contributes
`col.astype(str).str.lower().str.contains(s, na=False)`, OR-ed in.
Pandas `str.contains` treats `s` as a regular expression (`regex=True` by
default), so the matcher is the oracle `reSearch pat x`, standing for
`re.search(pat, x) is not None` over pandas' regex engine for patterns
that compile (a pattern that does not compile raises `re.error` uncaught,
so the script produces no table at all on such input and no total
behaviour is ascribed to it here).  On metacharacter-free patterns
`re.search` is exactly a substring test — see `dotSearch_literal` — which
is what the exactness claim below is restricted to. -/
def searchMatch (reSearch : String → String → Bool) (scols : List (Option String))
    (tcols : List String) (search_text : String) (r : Row) : Bool :=
  let s := toLowerPy (pyStrip search_text)
  scols.any (fun oc =>
    match oc with
    | some c => tcols.contains c && reSearch s (toLowerPy (cellToStr (cellAt r c)))
    | none => false)

/-- Lines 208–214: the search stage, guarded by Python truthiness of
`search_text` (empty text skips the stage). -/
def searchStage (reSearch : String → String → Bool) (scols : List (Option String))
    (tcols : List String) (search_text : String) (rows : List Row) : List Row :=
  if search_text = "" then rows
  else rows.filter (searchMatch reSearch scols tcols search_text)

/-- The column bindings resolved at lines 111–120 (any of which may be
unresolved). -/
structure Columns where
  col_num : Option String
  col_nome : Option String
  col_alcunha : Option String
  col_mae : Option String
  col_pai : Option String
  col_sit : Option String
  col_data : Option String
  col_org : Option String
  col_peca : Option String

/-- The user's filter selection: the three multiselects, the (converted)
date-range bounds, and the search text. -/
structure Selection where
  selected_situations : List String
  selected_orgs : List String
  selected_pecas : List String
  date_bounds : Option (Option Int × Option Int)
  search_text : String

/-- Lines 189–214: the filter stage, applied to `df_work`'s rows in source
order — Situação, Órgão Expedidor, Peça, date range, then search
(`reSearch` is the regex-search oracle of `searchMatch`). -/
def applyFilters (reSearch : String → String → Bool) (cols : Columns)
    (tcols : List String) (sel : Selection) (rows : List Row) : List Row :=
  searchStage reSearch
    [cols.col_num, cols.col_nome, cols.col_alcunha, cols.col_mae, cols.col_pai]
    tcols sel.search_text
    (dateFilterStage cols.col_data sel.date_bounds
      (catApply cols.col_peca sel.selected_pecas
        (catApply cols.col_org sel.selected_orgs
          (catApply cols.col_sit sel.selected_situations rows))))

/-- Lines 122–214 end to end: from the loaded table `t` to `df_filtered`'s
rows — build `df_work` (date coercion), then apply the five filters. -/
def pipeline (parse : String → Option Int) (reSearch : String → String → Bool)
    (cols : Columns) (sel : Selection) (t : Table) : List Row :=
  applyFilters reSearch cols t.cols sel (mkWork parse cols.col_data t).rows

/-! ### Column resolver (lines 111–120)

Each binding is `next((c for c in df.columns if <test>), None)`: the first
header passing a case-insensitive containment / equality / starts-with
test, or `None`. -/

/-- Line 111: first header starting with "númer" or "numero" (lowered). -/
def col_num (headers : List String) : Option String :=
  headers.find? (fun c =>
    (toLowerPy c).startsWith "númer" || (toLowerPy c).startsWith "numero")

/-- Line 112: first header whose lowering equals "nome". -/
def col_nome (headers : List String) : Option String :=
  headers.find? (fun c => toLowerPy c == "nome")

/-- Line 113: first header containing "alcun" (lowered). -/
def col_alcunha (headers : List String) : Option String :=
  headers.find? (fun c => strContainsSub (toLowerPy c) "alcun")

/-- Line 114: first header containing "mãe" or "mae" (lowered). -/
def col_mae (headers : List String) : Option String :=
  headers.find? (fun c =>
    strContainsSub (toLowerPy c) "mãe" || strContainsSub (toLowerPy c) "mae")

/-- Line 115: first header containing "pai" (lowered). -/
def col_pai (headers : List String) : Option String :=
  headers.find? (fun c => strContainsSub (toLowerPy c) "pai")

/-! ### Aggregator (`value_counts`, lines 143–146, 149–183, 246–258)

`series.value_counts()` groups equal values and sorts the (value, count)
pairs by descending count; the order of tied counts is left to the
library, so any descending-by-count order is a faithful model.  We
realise it as an insertion sort, descending on the count component, of
the (distinct value, multiplicity) pairs. -/

/-- Insert a pair into a list kept descending by count. -/
def insertDesc (p : String × Nat) : List (String × Nat) → List (String × Nat)
  | [] => [p]
  | q :: l => if q.2 ≤ p.2 then p :: q :: l else q :: insertDesc p l

/-- Insertion sort, descending by count. -/
def sortDesc : List (String × Nat) → List (String × Nat)
  | [] => []
  | p :: l => insertDesc p (sortDesc l)

/-- Pandas `series.value_counts()`: one (value, multiplicity) pair per distinct
value, sorted by descending multiplicity. -/
def value_counts (vals : List String) : List (String × Nat) :=
  sortDesc (vals.dedup.map (fun v => (v, vals.count v)))

/-- The string series `df[col].fillna("Não informado").astype(str)` that
every aggregation in the script starts from. -/
def colStrValues (c : String) (rows : List Row) : List String :=
  rows.map (fun r => fillNaStr (cellAt r c))

/-- Lines 143–146: `uniques(col)` — the index (value component) of the
column's `value_counts`, or `[]` when the column did not resolve or is not
among the table's columns. -/
def uniques (col : Option String) (tcols : List String) (rows : List Row) : List String :=
  match col with
  | some c =>
      if tcols.contains c then (value_counts (colStrValues c rows)).map Prod.fst
      else []
  | none => []

/-- Line 153 (and its clones at 166, 178): the quick-filter buttons,
`sit_vals[:6]` — the first six entries of `uniques(col)`. -/
def top_sit (col : Option String) (tcols : List String) (rows : List Row) : List String :=
  (uniques col tcols rows).take 6

/-- Line 247 (and its clones at 252, 257, 315–317):
`df_filtered[col].fillna('Não informado').astype(str).value_counts().head(20)`. -/
def sit_series (c : String) (rows : List Row) : List (String × Nat) :=
  (value_counts (colStrValues c rows)).take 20

/-- Modelled from the spec: the secondary drill-down view of the second
script variant, which is not present under `src/`; per the spec's
Aggregator section it is the same descending-count frequency table
truncated to the top 15. -/
def drilldown_series (c : String) (rows : List Row) : List (String × Nat) :=
  (value_counts (colStrValues c rows)).take 15

/-! ### Loader, URL branch (lines 84–95) -/

/-- The part of an HTTP response the loader looks at.  The status code is
carried to make explicit that the code never consults it. -/
structure Response where
  status_code : Nat
  text : String

/-- The loader's outcome: a table, or the unavailable signal (`None` plus
a sidebar error message). -/
inductive LoadResult where
  | table (t : Table)
  | unavailable (msg : String)
deriving DecidableEq

/-- The CAPTCHA error message of line 90. -/
def captchaMsg : String := "URL requer CAPTCHA — faça upload manual do XLSX."

/-- Lines 84–95: the URL branch of `load_df`.  `readExcel` abstracts
`read_excel_bytes` on the response content, `none` standing for it (or the
request) raising, which the `except` branch turns into the download-failure
message.  The CAPTCHA check is a plain substring test on the lowered body,
performed before any use of the content and never consulting the status
code. -/
def load_df_from_url (readExcel : Response → Option Table) (r : Response) : LoadResult :=
  if strContainsSub (toLowerPy r.text) "captcha" then
    LoadResult.unavailable captchaMsg
  else
    match readExcel r with
    | some t => LoadResult.table t
    | none => LoadResult.unavailable "Falha no download"

/-! ### Helper lemmas: each filter stage only drops rows -/

theorem catFilterStage_sublist (c : String) (sel : List String) (rows : List Row) :
    List.Sublist (catFilterStage c sel rows) rows := by
  unfold catFilterStage
  split
  · exact List.Sublist.refl rows
  · exact List.filter_sublist rows

theorem catApply_sublist (col : Option String) (sel : List String) (rows : List Row) :
    List.Sublist (catApply col sel rows) rows := by
  cases col with
  | some c => exact catFilterStage_sublist c sel rows
  | none => exact List.Sublist.refl rows

theorem dateFilterStage_sublist (col : Option String)
    (bounds : Option (Option Int × Option Int)) (rows : List Row) :
    List.Sublist (dateFilterStage col bounds rows) rows := by
  unfold dateFilterStage
  split
  · exact List.filter_sublist rows
  · exact List.Sublist.refl rows

theorem searchStage_sublist (reSearch : String → String → Bool)
    (scols : List (Option String)) (tcols : List String)
    (s : String) (rows : List Row) :
    List.Sublist (searchStage reSearch scols tcols s rows) rows := by
  unfold searchStage
  split
  · exact List.Sublist.refl rows
  · exact List.filter_sublist rows

theorem applyFilters_sublist (reSearch : String → String → Bool) (cols : Columns)
    (tcols : List String) (sel : Selection)
    (rows : List Row) : List.Sublist (applyFilters reSearch cols tcols sel rows) rows :=
  ((((searchStage_sublist _ _ _ _ _).trans
      (dateFilterStage_sublist _ _ _)).trans
      (catApply_sublist _ _ _)).trans
      (catApply_sublist _ _ _)).trans
      (catApply_sublist _ _ _)

/-! ### Helper lemmas: membership characterizations of the stages -/

theorem mem_catFilterStage_pred {c : String} {sel : List String} {rows : List Row}
    {r : Row} (h : r ∈ catFilterStage c sel rows) (hne : sel ≠ []) :
    sel.contains (fillNaStr (cellAt r c)) = true := by
  unfold catFilterStage at h
  rw [if_neg (by simpa using hne)] at h
  exact (List.mem_filter.mp h).2

theorem mem_dateFilterStage_iff {c : String} {s e : Int} {rows : List Row} {r : Row} :
    r ∈ dateFilterStage (some c) (some (some s, some e)) rows ↔
      r ∈ rows ∧ ∃ d, cellAt r c = Cell.date d ∧ s ≤ d ∧ d ≤ e := by
  simp only [dateFilterStage, List.mem_filter]
  refine and_congr_right (fun _ => ?_)
  cases h : cellAt r c <;> simp [h]

theorem mem_searchStage_pred {reSearch : String → String → Bool}
    {scols : List (Option String)} {tcols : List String}
    {s : String} {rows : List Row} {r : Row}
    (h : r ∈ searchStage reSearch scols tcols s rows) (hs : s ≠ "") :
    searchMatch reSearch scols tcols s r = true := by
  unfold searchStage at h
  rw [if_neg hs] at h
  exact (List.mem_filter.mp h).2

theorem searchMatch_iff (reSearch : String → String → Bool)
    (scols : List (Option String)) (tcols : List String)
    (s : String) (r : Row) :
    searchMatch reSearch scols tcols s r = true ↔
      ∃ c, some c ∈ scols ∧ tcols.contains c = true ∧
        reSearch (toLowerPy (pyStrip s)) (toLowerPy (cellToStr (cellAt r c))) = true := by
  simp only [searchMatch, List.any_eq_true]
  constructor
  · rintro ⟨oc, hmem, hoc⟩
    cases oc with
    | some c =>
        rw [Bool.and_eq_true] at hoc
        exact ⟨c, hmem, hoc.1, hoc.2⟩
    | none => exact absurd hoc (by simp)
  · rintro ⟨c, hc, h1, h2⟩
    refine ⟨some c, hc, ?_⟩
    show (tcols.contains c && _) = true
    rw [Bool.and_eq_true]
    exact ⟨h1, h2⟩

/-! ### Helper lemmas: on metacharacter-free patterns, regex search is
the substring test (the documented behaviour of Python `re.search`,
proved for the concrete `dotSearch` instance) -/

theorem dotMatchHere_literal (ps : List Char) (l : List Char)
    (h : ∀ c ∈ ps, (c == '.') = false) :
    dotMatchHere ps l = List.isPrefixOf ps l := by
  induction ps generalizing l with
  | nil => cases l <;> rfl
  | cons p ps ih =>
      cases l with
      | nil => rfl
      | cons c cs =>
          have hp := h p (List.mem_cons_self _ _)
          simp only [dotMatchHere, List.isPrefixOf, hp, Bool.false_or]
          rw [ih cs (fun c hc => h c (List.mem_cons_of_mem _ hc))]

theorem dotSearchAux_literal (ps : List Char) (l : List Char)
    (h : ∀ c ∈ ps, (c == '.') = false) :
    dotSearchAux ps l = containsAux ps l := by
  induction l with
  | nil => cases ps <;> rfl
  | cons c cs ih =>
      simp only [dotSearchAux, containsAux]
      rw [dotMatchHere_literal ps (c :: cs) h, ih]

theorem dotSearch_literal (needle hay : String) (h : noMeta needle = true) :
    dotSearch needle hay = strContainsSub hay needle := by
  have hnd : ∀ c ∈ needle.data, (c == '.') = false := by
    intro c hc
    have h2 := List.all_eq_true.mp h c hc
    by_cases hcd : c = '.'
    · subst hcd
      exact absurd h2 (by decide)
    · simp [hcd]
  exact dotSearchAux_literal needle.data hay.data hnd

/-! ### Helper lemmas: the descending sort underlying `value_counts` -/

theorem insertDesc_perm (p : String × Nat) (l : List (String × Nat)) :
    List.Perm (insertDesc p l) (p :: l) := by
  induction l with
  | nil => exact List.Perm.refl _
  | cons q l ih =>
      simp only [insertDesc]
      split
      · exact List.Perm.refl _
      · exact (List.Perm.cons q ih).trans (List.Perm.swap p q l)

theorem sortDesc_perm (l : List (String × Nat)) : List.Perm (sortDesc l) l := by
  induction l with
  | nil => exact List.Perm.refl _
  | cons p l ih => exact (insertDesc_perm p (sortDesc l)).trans (List.Perm.cons p ih)

theorem insertDesc_pairwise (p : String × Nat) {l : List (String × Nat)}
    (h : l.Pairwise (fun a b => b.2 ≤ a.2)) :
    (insertDesc p l).Pairwise (fun a b => b.2 ≤ a.2) := by
  induction l with
  | nil => simp [insertDesc]
  | cons q l ih =>
      rw [List.pairwise_cons] at h
      simp only [insertDesc]
      split
      case isTrue hqp =>
        refine List.pairwise_cons.mpr ⟨?_, List.pairwise_cons.mpr h⟩
        intro b hb
        rcases List.mem_cons.mp hb with hb | hb
        · exact hb ▸ hqp
        · exact Nat.le_trans (h.1 b hb) hqp
      case isFalse hqp =>
        refine List.pairwise_cons.mpr ⟨?_, ih h.2⟩
        intro b hb
        rcases List.mem_cons.mp ((insertDesc_perm p l).mem_iff.mp hb) with hb | hb
        · exact hb ▸ Nat.le_of_lt (Nat.lt_of_not_le hqp)
        · exact h.1 b hb

theorem sortDesc_pairwise (l : List (String × Nat)) :
    (sortDesc l).Pairwise (fun a b => b.2 ≤ a.2) := by
  induction l with
  | nil => exact List.Pairwise.nil
  | cons p l ih => exact insertDesc_pairwise p ih

theorem value_counts_pairwise (vals : List String) :
    (value_counts vals).Pairwise (fun a b => b.2 ≤ a.2) :=
  sortDesc_pairwise _

theorem value_counts_sum (vals : List String) :
    ((value_counts vals).map Prod.snd).sum = vals.length := by
  have hperm := (sortDesc_perm (vals.dedup.map (fun v => (v, vals.count v)))).map Prod.snd
  rw [value_counts, hperm.sum_eq, List.map_map]
  simpa using List.sum_map_count_dedup_eq_length vals

theorem value_counts_length (vals : List String) :
    (value_counts vals).length = vals.dedup.length := by
  rw [value_counts, (sortDesc_perm _).length_eq, List.length_map]

/-! ### Helper lemmas: the date coercion touches only the date column -/

theorem cellAt_coerceRow_other (parse : String → Option Int) (cd : Option String)
    (r : Row) (c : String) (h : cd ≠ some c) :
    cellAt (coerceRow parse cd r) c = cellAt r c := by
  cases cd with
  | none => rfl
  | some c0 =>
      have hne : c0 ≠ c := fun hc => h (by rw [hc])
      induction r with
      | nil => rfl
      | cons p r ih =>
          simp only [coerceRow, List.map_cons] at *
          by_cases hp : p.1 = c0
          · have hb : (p.1 == c0) = true := by simp [hp]
            have hb2 : (p.1 == c) = false := by simp [hp, hne]
            simp only [cellAt, hb, if_true, hb2, Bool.false_eq_true, if_false]
            exact ih
          · have hb : (p.1 == c0) = false := by simp [hp]
            simp only [cellAt, hb, Bool.false_eq_true, if_false]
            by_cases hq : p.1 = c
            · have hb2 : (p.1 == c) = true := by simp [hq]
              simp only [hb2, if_true]
            · have hb2 : (p.1 == c) = false := by simp [hq]
              simp only [hb2, Bool.false_eq_true, if_false]
              exact ih

theorem cellAt_coerceRow_data (parse : String → Option Int) (r : Row) (c : String) :
    cellAt (coerceRow parse (some c) r) c = to_datetime parse (cellAt r c) := by
  induction r with
  | nil => rfl
  | cons p r ih =>
      simp only [coerceRow, List.map_cons] at *
      by_cases hq : p.1 = c
      · have hb : (p.1 == c) = true := by simp [hq]
        simp only [cellAt, hb, if_true]
      · have hb : (p.1 == c) = false := by simp [hq]
        simp only [cellAt, hb, Bool.false_eq_true, if_false]
        exact ih

theorem mem_catApply_pred {c : String} {sel : List String} {rows : List Row}
    {r : Row} (h : r ∈ catApply (some c) sel rows) (hne : sel ≠ []) :
    sel.contains (fillNaStr (cellAt r c)) = true :=
  mem_catFilterStage_pred h hne

/-! ### Concrete inputs used by counterexamples and witnesses -/

/-- Loaded table for the C2 counterexample: one row whose `Data` cell holds
the unparseable date string `"31/02/2023"` (February 31st). -/
def t0 : Table := ⟨["Data"], [[("Data", Cell.str "31/02/2023")]]⟩

/-- Column bindings with only the date column resolved. -/
def cols0 : Columns := ⟨none, none, none, none, none, none, some "Data", none, none⟩

/-- The all-empty filter selection: no categorical choice, no date range,
no search text. -/
def sel0 : Selection := ⟨[], [], [], none, ""⟩

/-- Date-parse oracle under which every string is unparseable, as pandas
behaves on `"31/02/2023"` with `errors='coerce'`. -/
def parse0 : String → Option Int := fun _ => none

/-- Rows for the C5 counterexample: 21 warrants with 21 pairwise distinct
non-missing situation values. -/
def rows21 : List Row :=
  (List.range 21).map (fun i => [("Situação", Cell.str (toString i))])

/-- Rows of the spec's three-warrant scenario, `Situação = [A, B, A]`. -/
def rows3 : List Row :=
  [[("Situação", Cell.str "A")], [("Situação", Cell.str "B")], [("Situação", Cell.str "A")]]

/-- A blocked download response: CAPTCHA challenge text under a 500 status,
exercising that the status code is never consulted. -/
def resp0 : Response := ⟨500, "Internal error: please solve the CAPTCHA challenge"⟩

/-- The two-row name table of the spec's search scenario. -/
def joaoRows : List Row :=
  [[("Nome", Cell.str "João Silva")], [("Nome", Cell.str "Maria")]]

/-! ### The claims -/

/-- C1: for every loaded table and every filter selection, the filtered
table has row count at most the loaded table's row count, and every
surviving row satisfies every active predicate — membership in each
non-empty categorical selection after missing values are read as
"Não informado", date inside the converted range when one is active, and
the search-text match when search text was given. -/
theorem c1_filter_sound (parse : String → Option Int)
    (reSearch : String → String → Bool) (cols : Columns)
    (sel : Selection) (t : Table) :
    (pipeline parse reSearch cols sel t).length ≤ t.rows.length ∧
    ∀ r, r ∈ pipeline parse reSearch cols sel t →
      (∀ c, cols.col_sit = some c → sel.selected_situations ≠ [] →
          sel.selected_situations.contains (fillNaStr (cellAt r c)) = true) ∧
      (∀ c, cols.col_org = some c → sel.selected_orgs ≠ [] →
          sel.selected_orgs.contains (fillNaStr (cellAt r c)) = true) ∧
      (∀ c, cols.col_peca = some c → sel.selected_pecas ≠ [] →
          sel.selected_pecas.contains (fillNaStr (cellAt r c)) = true) ∧
      (∀ c s e, cols.col_data = some c → sel.date_bounds = some (some s, some e) →
          ∃ d, cellAt r c = Cell.date d ∧ s ≤ d ∧ d ≤ e) ∧
      (sel.search_text ≠ "" →
          searchMatch reSearch [cols.col_num, cols.col_nome, cols.col_alcunha, cols.col_mae,
            cols.col_pai] t.cols sel.search_text r = true) := by
  constructor
  · have h1 := (applyFilters_sublist reSearch cols t.cols sel
      (mkWork parse cols.col_data t).rows).length_le
    simpa [pipeline, mkWork] using h1
  · intro r hr
    simp only [pipeline, applyFilters] at hr
    have hrDate := (searchStage_sublist _ _ _ _ _).subset hr
    have hrPeca := (dateFilterStage_sublist _ _ _).subset hrDate
    have hrOrg := (catApply_sublist _ _ _).subset hrPeca
    have hrSit := (catApply_sublist _ _ _).subset hrOrg
    refine ⟨?_, ?_, ?_, ?_, ?_⟩
    · intro c hc hne
      rw [hc] at hrSit
      exact mem_catApply_pred hrSit hne
    · intro c hc hne
      rw [hc] at hrOrg
      exact mem_catApply_pred hrOrg hne
    · intro c hc hne
      rw [hc] at hrPeca
      exact mem_catApply_pred hrPeca hne
    · intro c s e hc hb
      rw [hc, hb] at hrDate
      exact (mem_dateFilterStage_iff.mp hrDate).2
    · intro hs
      exact mem_searchStage_pred hr hs

/-- C1, instantiated: the soundness conjunction evaluated at a concrete
table and selection. -/
theorem c1_witness :
    (pipeline parse0 dotSearch cols0 sel0 t0).length ≤ t0.rows.length ∧
    ∀ r, r ∈ pipeline parse0 dotSearch cols0 sel0 t0 →
      (∀ c, cols0.col_sit = some c → sel0.selected_situations ≠ [] →
          sel0.selected_situations.contains (fillNaStr (cellAt r c)) = true) ∧
      (∀ c, cols0.col_org = some c → sel0.selected_orgs ≠ [] →
          sel0.selected_orgs.contains (fillNaStr (cellAt r c)) = true) ∧
      (∀ c, cols0.col_peca = some c → sel0.selected_pecas ≠ [] →
          sel0.selected_pecas.contains (fillNaStr (cellAt r c)) = true) ∧
      (∀ c s e, cols0.col_data = some c → sel0.date_bounds = some (some s, some e) →
          ∃ d, cellAt r c = Cell.date d ∧ s ≤ d ∧ d ≤ e) ∧
      (sel0.search_text ≠ "" →
          searchMatch dotSearch [cols0.col_num, cols0.col_nome, cols0.col_alcunha,
            cols0.col_mae, cols0.col_pai] t0.cols sel0.search_text r = true) :=
  c1_filter_sound parse0 dotSearch cols0 sel0 t0

/-- C2, counterexample: with a resolved date column holding the unparseable
string "31/02/2023" and no filter active, the surviving row carries a
coerced null date cell — not the value it had at load time (so the
pipeline does mutate cell values of the loaded table's rows), and the
filtered table equals the loaded table in row count (so the subset is not
strict). -/
theorem c2_counterexample :
    pipeline parse0 dotSearch cols0 sel0 t0 = [[("Data", Cell.null)]] ∧
    t0.rows = [[("Data", Cell.str "31/02/2023")]] ∧
    ([("Data", Cell.null)] : Row) ∉ t0.rows ∧
    (pipeline parse0 dotSearch cols0 sel0 t0).length = t0.rows.length := by
  exact ⟨rfl, rfl, by decide, rfl⟩

/-- C2, amended: the filtered table is a (not necessarily strict) row
sublist of the working table; the working table is the loaded table with
exactly the resolved date column's cells replaced by their coerced
timestamps at load — every cell outside that column is untouched, and
rows that survive filtering carry exactly their working-table values
(filtering itself never rewrites a row). -/
theorem c2_subset_no_mutation (parse : String → Option Int)
    (reSearch : String → String → Bool) (cols : Columns)
    (sel : Selection) (t : Table) :
    List.Sublist (pipeline parse reSearch cols sel t) (mkWork parse cols.col_data t).rows ∧
    (mkWork parse cols.col_data t).rows = t.rows.map (coerceRow parse cols.col_data) ∧
    (∀ r c, cols.col_data ≠ some c →
        cellAt (coerceRow parse cols.col_data r) c = cellAt r c) ∧
    (∀ r c, cols.col_data = some c →
        cellAt (coerceRow parse cols.col_data r) c = to_datetime parse (cellAt r c)) := by
  refine ⟨applyFilters_sublist _ _ _ _ _, rfl, ?_, ?_⟩
  · intro r c h
    exact cellAt_coerceRow_other parse _ r c h
  · intro r c h
    rw [h]
    exact cellAt_coerceRow_data parse r c

/-- C3: an empty categorical selection (Situação, Órgão Expedidor or Peça
— all three run through `catApply`) skips the filter entirely: the stage
is the identity on tables, "no restriction" rather than "exclude all". -/
theorem c3_empty_selection_identity (col : Option String) (rows : List Row) :
    catApply col [] rows = rows := by
  cases col <;> rfl

/-- C4: with a resolved date column and both range bounds converted, the
date stage keeps exactly the rows whose date cell `d` satisfies
`start ≤ d ≤ end` (both bounds inclusive); a row whose date cell is null
is always excluded, and an unparseable date string was coerced to null at
load. -/
theorem c4_date_range_inclusive (c : String) (s e : Int) (rows : List Row) :
    (∀ r, r ∈ dateFilterStage (some c) (some (some s, some e)) rows ↔
        r ∈ rows ∧ ∃ d, cellAt r c = Cell.date d ∧ s ≤ d ∧ d ≤ e) ∧
    (∀ r, cellAt r c = Cell.null →
        r ∉ dateFilterStage (some c) (some (some s, some e)) rows) ∧
    (∀ parse v, parse v = none → to_datetime parse (Cell.str v) = Cell.null) := by
  refine ⟨fun r => mem_dateFilterStage_iff, ?_, ?_⟩
  · intro r hnull hmem
    obtain ⟨-, d, hd, -⟩ := mem_dateFilterStage_iff.mp hmem
    rw [hnull] at hd
    exact Cell.noConfusion hd
  · intro parse v h
    simp [to_datetime, h]

/-- C5, counterexample: the aggregate the code produces is truncated to the
top 20, so on 21 rows with 21 distinct non-missing situation values its
counts sum to 20, not to the filtered row count 21. -/
theorem c5_counterexample :
    (∀ r ∈ rows21, cellAt r "Situação" ≠ Cell.null) ∧
    ((sit_series "Situação" rows21).map Prod.snd).sum = 20 ∧
    rows21.length = 21 := by
  refine ⟨by decide, by decide, by decide⟩

/-- C5, amended: when the resolved column has no missing values and at
most 20 distinct values (so the top-20 truncation drops nothing), the
counts of the aggregate frequency table sum to the filtered row count. -/
theorem c5_counts_sum (c : String) (rows : List Row)
    (_hnn : ∀ r ∈ rows, cellAt r c ≠ Cell.null)
    (hd : (colStrValues c rows).dedup.length ≤ 20) :
    ((sit_series c rows).map Prod.snd).sum = rows.length := by
  have hlen : (value_counts (colStrValues c rows)).length ≤ 20 := by
    rw [value_counts_length]
    exact hd
  rw [sit_series, List.take_of_length_le hlen, value_counts_sum]
  simp [colStrValues]

/-- C5, instantiated at the spec's `Situação = [A, B, A]` scenario: the
hypotheses hold and the counts sum to 3. -/
theorem c5_witness :
    (∀ r ∈ rows3, cellAt r "Situação" ≠ Cell.null) ∧
    (colStrValues "Situação" rows3).dedup.length ≤ 20 ∧
    ((sit_series "Situação" rows3).map Prod.snd).sum = rows3.length :=
  ⟨by decide, by decide, c5_counts_sum "Situação" rows3 (by decide) (by decide)⟩

/-- C6: each aggregate is a descending-count frequency table truncated to
its fixed top-N — 20 for the chart/report series, 15 for the drill-down of
the second script variant (modelled from the spec), and 6 values for the
quick-filter buttons, which take the first six entries of the
descending-count index of the same frequency table. -/
theorem c6_topn_aggregates (c : String) (tcols : List String) (rows : List Row) :
    (sit_series c rows).Pairwise (fun a b => b.2 ≤ a.2) ∧
    (sit_series c rows).length ≤ 20 ∧
    (drilldown_series c rows).Pairwise (fun a b => b.2 ≤ a.2) ∧
    (drilldown_series c rows).length ≤ 15 ∧
    (top_sit (some c) tcols rows).length ≤ 6 ∧
    (tcols.contains c = true →
      top_sit (some c) tcols rows
        = ((value_counts (colStrValues c rows)).map Prod.fst).take 6) := by
  refine ⟨?_, ?_, ?_, ?_, ?_, ?_⟩
  · exact (value_counts_pairwise _).sublist (List.take_sublist _ _)
  · exact List.length_take_le _ _
  · exact (value_counts_pairwise _).sublist (List.take_sublist _ _)
  · exact List.length_take_le _ _
  · exact List.length_take_le _ _
  · intro h
    have hm : c ∈ tcols := by simpa using h
    simp [top_sit, uniques, hm]

/-- C6, instantiated on the `Situação = [A, B, A]` table. -/
theorem c6_witness :
    (sit_series "Situação" rows3).Pairwise (fun a b => b.2 ≤ a.2) ∧
    (sit_series "Situação" rows3).length ≤ 20 ∧
    (drilldown_series "Situação" rows3).Pairwise (fun a b => b.2 ≤ a.2) ∧
    (drilldown_series "Situação" rows3).length ≤ 15 ∧
    (top_sit (some "Situação") ["Situação"] rows3).length ≤ 6 ∧
    ((["Situação"] : List String).contains "Situação" = true →
      top_sit (some "Situação") ["Situação"] rows3
        = ((value_counts (colStrValues "Situação" rows3)).map Prod.fst).take 6) :=
  c6_topn_aggregates "Situação" ["Situação"] rows3

/-- C7: a response whose body contains "captcha" (case-insensitively)
makes the URL branch of the loader report the CAPTCHA-blocked error and
return the unavailable signal, whatever the status code and whatever the
spreadsheet reader would have produced. -/
theorem c7_captcha_aborts (readExcel : Response → Option Table) (r : Response)
    (h : strContainsSub (toLowerPy r.text) "captcha" = true) :
    load_df_from_url readExcel r = LoadResult.unavailable captchaMsg := by
  unfold load_df_from_url
  rw [if_pos h]

/-- C7, instantiated: an upper-case CAPTCHA challenge body under HTTP
status 500 is reported as CAPTCHA-blocked. -/
theorem c7_witness :
    strContainsSub (toLowerPy resp0.text) "captcha" = true ∧
    load_df_from_url (fun _ => none) resp0 = LoadResult.unavailable captchaMsg :=
  ⟨by decide, c7_captcha_aborts (fun _ => none) resp0 (by decide)⟩

/-- C8, counterexample: the claim's "keeps exactly ... as a
case-insensitive substring" fails on the code in two independent ways.
Pandas `str.contains` treats the text as a regular expression, so the
search text "m.ria" keeps the row "Maria" (`re.search` matches `.`
against the `a`, here witnessed by the `dotSearch` oracle instance that
agrees with Python on `.`-patterns) although "m.ria" is not a substring
of "maria"; and the code strips the text first, so the search text " a"
keeps a row whose name cell is "a" although no resolved column contains
the literal " a" as a substring. -/
theorem c8_counterexample :
    searchStage dotSearch [some "Nome", none, none, none, none] ["Nome"] "m.ria"
        [[("Nome", Cell.str "Maria")]] = [[("Nome", Cell.str "Maria")]] ∧
    strContainsSub (toLowerPy (cellToStr (cellAt [("Nome", Cell.str "Maria")] "Nome")))
        (toLowerPy (pyStrip "m.ria")) = false ∧
    dotSearch "m.ria" "maria" = true ∧
    searchStage dotSearch [some "Nome", none, none, none, none] ["Nome"] " a"
        [[("Nome", Cell.str "a")]] = [[("Nome", Cell.str "a")]] ∧
    strContainsSub (toLowerPy (cellToStr (cellAt [("Nome", Cell.str "a")] "Nome")))
        (toLowerPy " a") = false := by
  refine ⟨by decide, by decide, by decide, by decide, by decide⟩

/-- C8, amended: pandas interprets the stripped, lowered search text as a
regular expression, so the substring reading of the claim holds exactly
on the search texts free of regex metacharacters: for every regex-search
oracle that behaves as the documented `re.search` on metacharacter-free
patterns (a substring test), every non-empty search text whose stripped
form is metacharacter-free keeps exactly the rows in which at least one
resolved search column present in the table contains the stripped search
text as a case-insensitive substring of the cell's string rendering. -/
theorem c8_search_exact (reSearch : String → String → Bool)
    (scols : List (Option String)) (tcols : List String)
    (s : String) (rows : List Row) (r : Row) (hs : s ≠ "")
    (hlit : ∀ needle hay, noMeta needle = true →
        reSearch needle hay = strContainsSub hay needle)
    (hnm : noMeta (toLowerPy (pyStrip s)) = true) :
    r ∈ searchStage reSearch scols tcols s rows ↔
      r ∈ rows ∧ ∃ c, some c ∈ scols ∧ tcols.contains c = true ∧
        strContainsSub (toLowerPy (cellToStr (cellAt r c))) (toLowerPy (pyStrip s)) = true := by
  rw [searchStage, if_neg hs, List.mem_filter]
  refine and_congr_right (fun _ => ?_)
  rw [searchMatch_iff]
  refine exists_congr (fun c => and_congr_right (fun _ => and_congr_right (fun _ => ?_)))
  rw [hlit _ _ hnm]

/-- C8, instantiated at the spec's scenario: "joão" is metacharacter-free,
the `dotSearch` oracle is literal on such patterns, and searching "joão"
keeps the "João Silva" row. -/
theorem c8_witness :
    ("joão" : String) ≠ "" ∧
    noMeta (toLowerPy (pyStrip "joão")) = true ∧
    [("Nome", Cell.str "João Silva")] ∈
      searchStage dotSearch [none, some "Nome", none, none, none] ["Nome"] "joão" joaoRows :=
  ⟨by decide, by decide,
    (c8_search_exact dotSearch [none, some "Nome", none, none, none] ["Nome"] "joão"
        joaoRows [("Nome", Cell.str "João Silva")] (by decide)
        (fun needle hay h => dotSearch_literal needle hay h) (by decide)).mpr
      ⟨by decide, "Nome", by decide, by decide, by decide⟩⟩

/-- C9: when none of the five searchable roles resolves to a column, the
mask of the search stage starts all-false and nothing can set it true, so
any non-empty search text filters out every row — the stage does not
degrade to "no restriction". -/
theorem c9_unresolved_search_empty (reSearch : String → String → Bool)
    (headers tcols : List String) (s : String)
    (rows : List Row)
    (h1 : col_num headers = none) (h2 : col_nome headers = none)
    (h3 : col_alcunha headers = none) (h4 : col_mae headers = none)
    (h5 : col_pai headers = none) (hs : s ≠ "") :
    searchStage reSearch [col_num headers, col_nome headers, col_alcunha headers,
      col_mae headers, col_pai headers] tcols s rows = [] := by
  rw [h1, h2, h3, h4, h5, searchStage, if_neg hs]
  refine List.filter_eq_nil_iff.mpr (fun r _ hmatch => ?_)
  simp [searchMatch] at hmatch

/-- C9, instantiated: a table whose only header is "Data" resolves none of
the five roles, and searching "x" returns no rows even though a cell
contains "x". -/
theorem c9_witness :
    col_num ["Data"] = none ∧ col_nome ["Data"] = none ∧
    col_alcunha ["Data"] = none ∧ col_mae ["Data"] = none ∧
    col_pai ["Data"] = none ∧
    searchStage dotSearch [col_num ["Data"], col_nome ["Data"], col_alcunha ["Data"],
      col_mae ["Data"], col_pai ["Data"]] ["Data"] "x"
      [[("Data", Cell.str "x")]] = [] :=
  ⟨by decide, by decide, by decide, by decide, by decide,
    c9_unresolved_search_empty dotSearch ["Data"] ["Data"] "x" [[("Data", Cell.str "x")]]
      (by decide) (by decide) (by decide) (by decide) (by decide) (by decide)⟩

/-- C10: with a resolved date column and an active range, if converting
either bound raised (modelled as that bound being `none`), the date stage
leaves the table exactly as it was — the restriction is silently skipped
and no error propagates. -/
theorem c10_bound_error_skips (c : String) (b : Option Int × Option Int)
    (rows : List Row) (h : b.1 = none ∨ b.2 = none) :
    dateFilterStage (some c) (some b) rows = rows := by
  obtain ⟨b1, b2⟩ := b
  rcases h with h | h
  · simp only at h
    subst h
    rfl
  · simp only at h
    subst h
    cases b1 <;> rfl

/-- C10, instantiated: a failed start-bound conversion leaves a one-row
table untouched. -/
theorem c10_witness :
    ((none : Option Int), some (5 : Int)).1 = none ∧
    dateFilterStage (some "Data") (some (none, some 5)) [[("Data", Cell.date 3)]]
      = [[("Data", Cell.date 3)]] :=
  ⟨rfl, c10_bound_error_skips "Data" (none, some 5) [[("Data", Cell.date 3)]] (Or.inl rfl)⟩

end BNMP
